import Mathlib

/-!
Verification of the simm backend against its specification.

Shallow embedding of the repository's Python code:
* `backend/core/security.py` — JWT session issue/validate.
* `backend/services/facebook_service.py` — feed proxy (posts, single post,
  paginated comments).
* `backend/api/v1/endpoints/facebook.py` — the three feed endpoints.
* `backend/api/v1/endpoints/sentiment.py` — media-URL extraction and
  sentiment percentage aggregation.

Conventions: time is UTC epoch seconds (`Nat`); durations are nonnegative
seconds; HMAC signing is modelled abstractly by carrying the signing key in
the token, signature verification being key equality; outbound HTTP calls
are modelled by an oracle trace of `HttpOutcome` values consumed in call
order; Python exceptions become `Except` values.
-/

set_option autoImplicit false

namespace Simm

/-! ## Identity / session component (`backend/core/security.py`) -/

/-- The claim dict handed to `create_access_token` by the OAuth callback
(`app_jwt_data` in `backend/api/v1/endpoints/auth.py`). -/
structure Claims where
  sub : Option String
  name : Option String
  email : Option String
  picture : Option String
  fb_access_token : Option String
deriving DecidableEq

/-- The `TokenPayload` pydantic model (`backend/schemas/token.py`):
every field optional, `exp` an epoch-seconds integer. -/
structure TokenPayload where
  sub : Option String
  exp : Option Nat
  name : Option String
  email : Option String
  picture : Option String
  fb_access_token : Option String
deriving DecidableEq

/-- A signed JWT. HS256 signing is abstracted: the token records the payload
and the key it was signed with; `jwt_decode` checks the key matches. -/
structure JwtToken where
  payload : TokenPayload
  key : String
deriving DecidableEq

/-- `create_access_token(data, expires_delta)` at issue time `now`:
copies the claims and adds `exp = now + expires_delta`. The guard
`if expires_delta:` is a Python truthiness test, so both `None` and
`timedelta(0)` take the `else` branch with the 30-minute (1800 s) default;
a timedelta of any other (nonnegative, per the `Nat` model) length is
truthy and used as given. -/
def create_access_token (data : Claims) (expires_delta : Option Nat) (now : Nat)
    (key : String) : JwtToken :=
  let expire :=
    match expires_delta with
    | some d => if d ≠ 0 then now + d else now + 30 * 60
    | none => now + 30 * 60
  { payload :=
      { sub := data.sub
        exp := some expire
        name := data.name
        email := data.email
        picture := data.picture
        fb_access_token := data.fb_access_token }
    key := key }

/-- The ttl the truthiness guard of `create_access_token` actually applies:
a missing or zero `expires_delta` falls back to the 30-minute default,
anything else is used as given. -/
def effective_ttl (expires_delta : Option Nat) : Nat :=
  match expires_delta with
  | some d => if d ≠ 0 then d else 30 * 60
  | none => 30 * 60

/-- Errors `jose.jwt.decode` can raise (all subclasses of `JWTError`). -/
inductive JWTErr where
  | invalidSignature
  | expiredSignature
deriving DecidableEq

/-- `jose.jwt.decode(token, key, algorithms=[ALGORITHM])`: verifies the
signature first, then the registered `exp` claim with a strict comparison
(`exp < now` raises `ExpiredSignatureError`; `exp = now` passes). -/
def jwt_decode (tok : JwtToken) (key : String) (now : Nat) :
    Except JWTErr TokenPayload :=
  if tok.key ≠ key then .error .invalidSignature
  else
    match tok.payload.exp with
    | some e => if e < now then .error .expiredSignature else .ok tok.payload
    | none => .ok tok.payload

/-- The ways the `try` block of `verify_token` can fail: a `JWTError` from
decoding, or the manual `HTTPException(401, "Token has expired")` raised
after the extra expiry re-check. -/
inductive VerifyFail where
  | jwtError (e : JWTErr)
  | tokenExpiredHttp
deriving DecidableEq

/-- The `try` block of `verify_token`: decode, build `TokenPayload`
(always succeeds — every field is optional), then re-check expiry and raise
`HTTPException(401, "Token has expired")` if `exp < now`. -/
def verify_token_body (tok : JwtToken) (key : String) (now : Nat) :
    Except VerifyFail TokenPayload :=
  match jwt_decode tok key now with
  | .error e => .error (.jwtError e)
  | .ok p =>
    match p.exp with
    | some e => if e < now then .error .tokenExpiredHttp else .ok p
    | none => .ok p

/-- A FastAPI `HTTPException` as seen by the client: status code and
`detail` string. -/
structure HttpError where
  status : Nat
  detail : String
deriving DecidableEq

/-- The `credentials_exception` built in `get_current_user`. -/
def credentialsException : HttpError :=
  { status := 401, detail := "Could not validate credentials" }

/-- `verify_token(token, credentials_exception)`: any exception escaping the
`try` block — `JWTError` via the first handler, everything else (including
the manually raised `HTTPException("Token has expired")`) via the
`except Exception` handler — is replaced by `credentials_exception`. -/
def verify_token (tok : JwtToken) (key : String) (now : Nat)
    (credExc : HttpError) : Except HttpError TokenPayload :=
  match verify_token_body tok key now with
  | .error _ => .error credExc
  | .ok p => .ok p

/-- `get_current_user`: builds the generic `credentials_exception`, runs
`verify_token`, then rejects payloads whose `sub` claim is absent with the
same exception. (The bearer-token extraction by `OAuth2PasswordBearer` is
FastAPI library code and is not modelled; the token string is the input.) -/
def get_current_user (tok : JwtToken) (key : String) (now : Nat) :
    Except HttpError TokenPayload :=
  match verify_token tok key now credentialsException with
  | .error e => .error e
  | .ok p => if p.sub = none then .error credentialsException else .ok p

/-! ## External feed proxy (`backend/services/facebook_service.py`)

Outbound calls are modelled by an oracle trace: a list of `HttpOutcome`
values, one per outbound HTTP GET, consumed in call order. `raise_for_status`
on a non-2xx response is the `httpStatusError` outcome; `httpx.RequestError`
(connection error, timeout, …) is the `requestError` outcome with its
message. -/

/-- The outcome of one outbound HTTP GET, with parsed JSON body `β`. -/
inductive HttpOutcome (β : Type) where
  | ok (body : β)
  | httpStatusError (status : Nat) (text : String)
  | requestError (msg : String)
deriving DecidableEq

/-- The typed errors the service methods re-raise to their caller. -/
inductive FetchError where
  | httpStatus (status : Nat) (text : String)
  | transport (msg : String)
deriving DecidableEq

/-- The provider's pagination envelope inside a posts response:
`paging.next` and `paging.cursors.after`. -/
structure FbPaging where
  next : Option String
  cursors_after : Option String
deriving DecidableEq

/-- Parsed JSON body of a posts-feed response: `data` (a list of records of
abstract type `α`) and the `paging` envelope. -/
structure PostsBody (α : Type) where
  data : List α
  paging : FbPaging
deriving DecidableEq

/-- The uniform page shape `get_user_posts` returns on success. -/
structure PostsPage (α : Type) where
  data : List α
  paging : FbPaging
  has_next_page : Bool
  next_cursor : Option String
deriving DecidableEq

/-- The body of `get_user_posts` applied to the outcome of its single GET:
success translates the envelope (`has_next_page` iff a `next` link exists,
`next_cursor` from `paging.cursors.after`); every `except` branch
re-raises. -/
def get_user_posts_step {α : Type} (o : HttpOutcome (PostsBody α)) :
    Except FetchError (PostsPage α) :=
  match o with
  | .ok body =>
    .ok { data := body.data
          paging := body.paging
          has_next_page := body.paging.next.isSome
          next_cursor := body.paging.cursors_after }
  | .httpStatusError s txt => .error (.httpStatus s txt)
  | .requestError msg => .error (.transport msg)

/-- `FacebookService.get_user_posts` over the oracle trace: it performs
exactly one GET, so it consumes exactly the head of the trace and returns
the rest untouched. An empty trace (no response available for the one call
the code always makes) is reported as a transport failure. -/
def get_user_posts {α : Type} (queue : List (HttpOutcome (PostsBody α))) :
    Except FetchError (PostsPage α) × List (HttpOutcome (PostsBody α)) :=
  match queue with
  | [] => (.error (.transport "no response"), [])
  | o :: rest => (get_user_posts_step o, rest)

/-- The body of `get_single_post` applied to the outcome of its single GET:
success returns `response.json()` unchanged; every `except` branch
re-raises. -/
def get_single_post_step {β : Type} (o : HttpOutcome β) : Except FetchError β :=
  match o with
  | .ok body => .ok body
  | .httpStatusError s txt => .error (.httpStatus s txt)
  | .requestError msg => .error (.transport msg)

/-- `FacebookService.get_single_post` over the oracle trace: one GET,
consuming exactly the head of the trace. -/
def get_single_post {β : Type} (queue : List (HttpOutcome β)) :
    Except FetchError β × List (HttpOutcome β) :=
  match queue with
  | [] => (.error (.transport "no response"), [])
  | o :: rest => (get_single_post_step o, rest)

/-- Parsed JSON body of one comments page: `data` and the
`paging.next` link. -/
structure CommentsBody (α : Type) where
  data : List α
  paging_next : Option String
deriving DecidableEq

/-- The `while next_page_url:` loop of `get_post_comments`, consuming one
trace entry per iteration. On success the page's records are appended
(the code's `if comments_data:` guard makes the empty case a no-op, which
appending the empty list also is); `break` on `not fetch_all`; the loop
condition fails when no `next` link is present. Both `except` handlers
`break`, keeping the accumulator. If the trace is exhausted while a `next`
link remains, the accumulator is returned (the oracle ends). -/
def commentsLoop {α : Type} (fetch_all : Bool) :
    List (HttpOutcome (CommentsBody α)) → List α → List α
  | [], acc => acc
  | o :: rest, acc =>
    match o with
    | .httpStatusError _ _ => acc
    | .requestError _ => acc
    | .ok body =>
      let acc' := if body.data.isEmpty then acc else acc ++ body.data
      if fetch_all then
        match body.paging_next with
        | none => acc'
        | some _ => commentsLoop fetch_all rest acc'
      else acc'

/-- `FacebookService.get_post_comments`: runs the pagination loop starting
from an empty accumulator and returns `all_comments`. Its type already
records that upstream HTTP-status and transport errors are caught inside
the loop: the method returns a plain list, never one of those errors. -/
def get_post_comments {α : Type} (fetch_all : Bool)
    (trace : List (HttpOutcome (CommentsBody α))) : List α :=
  commentsLoop fetch_all trace []

/-! ## Feed endpoints (`backend/api/v1/endpoints/facebook.py`)

Each handler runs behind `Depends(get_current_active_user)`; the model
takes the already-validated `TokenPayload`. Python's
`if not current_user.fb_access_token` treats both `None` and the empty
string as falsy. In the `except Exception` handlers, `hasattr(e, 'response')`
holds for `httpx.HTTPStatusError` (which carries the response) and fails for
`httpx.RequestError` (which only carries the request). -/

/-- The 403 raised when the JWT carries no usable Facebook token. -/
def noFbTokenError : HttpError :=
  { status := 403, detail := "Facebook access token not found in JWT." }

/-- `GET /posts` handler. On an upstream non-2xx it re-raises the provider's
status; on a transport error the `hasattr(e, 'response')` guard fails and —
the handler having no fallback `raise` — the function body ends, implicitly
returning `None` (modelled as `.ok none`: no `HTTPException`, no dict). -/
def get_facebook_posts {α : Type} (current_user : TokenPayload)
    (o : HttpOutcome (PostsBody α)) : Except HttpError (Option (PostsPage α)) :=
  match current_user.fb_access_token with
  | none => .error noFbTokenError
  | some t =>
    if t = "" then .error noFbTokenError
    else
      match get_user_posts_step o with
      | .ok page => .ok (some page)
      | .error (.httpStatus s txt) =>
        .error { status := s, detail := "Error fetching Facebook posts: " ++ txt }
      | .error (.transport _) => .ok none

/-- `GET /posts/{post_id}` handler. Same shape, but its `except` block ends
with a fallback `raise HTTPException(500, ...)`, so a transport error
becomes a 500 with a generic message. -/
def get_facebook_post {β : Type} (current_user : TokenPayload)
    (o : HttpOutcome β) : Except HttpError β :=
  match current_user.fb_access_token with
  | none => .error noFbTokenError
  | some t =>
    if t = "" then .error noFbTokenError
    else
      match get_single_post_step o with
      | .ok body => .ok body
      | .error (.httpStatus s txt) =>
        .error { status := s, detail := "Error fetching Facebook post: " ++ txt }
      | .error (.transport msg) =>
        .error { status := 500
                 detail := "An unexpected error occurred while fetching post: " ++ msg }

/-- `GET /posts/{post_id}/comments` handler. It calls `get_post_comments`
with `fetch_all` left at its default `False`; since that method catches
upstream HTTP-status and transport errors internally, the handler's own
`try/except` never fires for them and the accumulated list is returned
with status 200. -/
def get_facebook_post_comments {α : Type} (current_user : TokenPayload)
    (trace : List (HttpOutcome (CommentsBody α))) : Except HttpError (List α) :=
  match current_user.fb_access_token with
  | none => .error noFbTokenError
  | some t =>
    if t = "" then .error noFbTokenError
    else .ok (get_post_comments false trace)

/-! ## Sentiment tally (`backend/api/v1/endpoints/sentiment.py`)

`extract_image_urls` runs
`re.findall(r'https?://[^\s<>"]+\.(?:png|jpe?g)(?:\?[^\s<>"]*)?', text, re.IGNORECASE)`.
The scanner below implements that exact pattern with Python `re` semantics:
left-to-right scan, non-overlapping matches, greedy `+` with backtracking,
alternation tried left to right, case-insensitive literals. -/

/-- Characters Python's `\s` matches on ASCII input. -/
def pyWhitespace (c : Char) : Bool :=
  c == ' ' || c == '\t' || c == '\n' || c == '\x0b' || c == '\x0c' || c == '\r'

/-- The character class `[^\s<>"]`. -/
def urlChar (c : Char) : Bool :=
  !pyWhitespace c && c != '<' && c != '>' && c != '\"'

/-- Drop a case-insensitive literal (given lowercase) from the front,
returning the rest on success. -/
def dropCI : List Char → List Char → Option (List Char)
  | [], s => some s
  | _ :: _, [] => none
  | p :: ps, c :: cs => if c.toLower = p then dropCI ps cs else none

/-- Length of the longest leading run of `[^\s<>"]` characters. -/
def urlRunLen : List Char → Nat
  | [] => 0
  | c :: cs => if urlChar c then 1 + urlRunLen cs else 0

/-- The alternation `(?:png|jpe?g)` (case-insensitive, alternatives and the
greedy `e?` tried in the engine's order): number of characters matched. -/
def matchExt (s : List Char) : Option Nat :=
  match dropCI ['p', 'n', 'g'] s with
  | some _ => some 3
  | none =>
    match dropCI ['j', 'p', 'e', 'g'] s with
    | some _ => some 4
    | none =>
      match dropCI ['j', 'p', 'g'] s with
      | some _ => some 3
      | none => none

/-- The greedy optional query `(?:\?[^\s<>"]*)?`: characters matched. -/
def matchQuery : List Char → Nat
  | '?' :: rest => 1 + urlRunLen rest
  | _ => 0

/-- The pattern tail `\.(?:png|jpe?g)(?:\?[^\s<>"]*)?` at the current
position: characters matched, or `none`. -/
def matchTail (s : List Char) : Option Nat :=
  match s with
  | '.' :: rest =>
    match matchExt rest with
    | some n => some (1 + n + matchQuery (rest.drop n))
    | none => none
  | _ => none

/-- Backtracking for `[^\s<>"]+` followed by the tail: the engine first
matches the class greedily (length `urlRunLen`), then gives characters back
one at a time; `k` is the class length currently tried, and the first
(longest) `k ≥ 1` whose remainder matches wins. -/
def bodyScan (s : List Char) : Nat → Option Nat
  | 0 => none
  | k + 1 =>
    match matchTail (s.drop (k + 1)) with
    | some m => some (k + 1 + m)
    | none => bodyScan s k

/-- The scheme literal `https?://` (case-insensitive, greedy `s?` with
backtracking): characters matched and the rest. -/
def matchScheme (s : List Char) : Option (Nat × List Char) :=
  match dropCI ['h', 't', 't', 'p'] s with
  | none => none
  | some r =>
    match r with
    | [] => none
    | c :: rest =>
      if c.toLower = 's' then
        match dropCI [':', '/', '/'] rest with
        | some r2 => some (8, r2)
        | none =>
          match dropCI [':', '/', '/'] r with
          | some r2 => some (7, r2)
          | none => none
      else
        match dropCI [':', '/', '/'] r with
        | some r2 => some (7, r2)
        | none => none

/-- A match of the whole image-URL pattern anchored at the current
position: its length, or `none`. -/
def matchUrlAt (s : List Char) : Option Nat :=
  match matchScheme s with
  | none => none
  | some (n, rest) =>
    match bodyScan rest (urlRunLen rest) with
    | some m => some (n + m)
    | none => none

/-- `re.findall` for the image-URL pattern: scan left to right, emit each
match, resume after its end (non-overlapping). Every step consumes at least
one character, so `fuel` bounded below by the text length covers the whole
scan; structural recursion on `fuel` keeps the scanner kernel-reducible. -/
def scanCommentAux : Nat → List Char → List (List Char)
  | 0, _ => []
  | _, [] => []
  | fuel + 1, c :: cs =>
    match matchUrlAt (c :: cs) with
    | some n => (c :: cs).take n :: scanCommentAux fuel (cs.drop (n - 1))
    | none => scanCommentAux fuel cs

/-- The scan of a whole text: the text's length is always enough fuel. -/
def scanComment (s : List Char) : List (List Char) :=
  scanCommentAux s.length s

/-- `extract_image_urls(comment_text)`. -/
def extract_image_urls (comment_text : String) : List String :=
  (scanComment comment_text.data).map (fun cs => String.mk cs)

/-- Whether any position of the text matches the image-URL pattern, i.e.
whether the text contains a URL ending in one of the image extensions
(optionally followed by a query string). -/
def hasImageUrl : List Char → Bool
  | [] => false
  | c :: cs => (matchUrlAt (c :: cs)).isSome || hasImageUrl cs

/-- The three aggregate percentages `analyze_sentiment` returns. -/
structure SentimentPercentages where
  positive : ℚ
  negative : ℚ
  neutral : ℚ
deriving DecidableEq

/-- The aggregation tail of `analyze_sentiment`
(`backend/api/v1/endpoints/sentiment.py`, lines 143–153): with
`total_predictions = len(sentiment_results)`, an empty batch returns
all-zero percentages, otherwise each recognized label's count (`Counter`
lookup with default 0) is divided by the total and scaled by 100.
Percentages are modelled in `ℚ`; the concrete values the claims mention
(multiples of 1/4) are exact in Python floats as well. -/
def sentiment_percentages (sentiment_results : List String) : SentimentPercentages :=
  let total : ℚ := (sentiment_results.length : ℚ)
  if sentiment_results.length = 0 then
    { positive := 0, negative := 0, neutral := 0 }
  else
    { positive := (sentiment_results.count "positive" : ℚ) / total * 100
      negative := (sentiment_results.count "negative" : ℚ) / total * 100
      neutral := (sentiment_results.count "neutral" : ℚ) / total * 100 }

/-! ## Shared helper lemmas and concrete fixtures -/

/-- A text with no image-URL match anywhere scans to the empty list,
whatever the fuel. -/
theorem scanCommentAux_eq_nil :
    ∀ (fuel : Nat) (s : List Char), hasImageUrl s = false → scanCommentAux fuel s = []
  | 0, s, _ => by cases s <;> rfl
  | _ + 1, [], _ => rfl
  | fuel + 1, c :: cs, h => by
    have h' : (matchUrlAt (c :: cs)).isSome = false ∧ hasImageUrl cs = false := by
      simpa [hasImageUrl] using h
    have hm : matchUrlAt (c :: cs) = none :=
      Option.not_isSome_iff_eq_none.mp (by simp [h'.1])
    simp only [scanCommentAux, hm]
    exact scanCommentAux_eq_nil fuel cs h'.2

/-- The token `create_access_token` builds, in closed form: the claims
verbatim plus `exp = issue time + effective ttl`, signed with the given
key. -/
theorem create_access_token_eq (data : Claims) (ttl : Option Nat) (now : Nat)
    (key : String) :
    create_access_token data ttl now key =
      { payload :=
          { sub := data.sub, exp := some (now + effective_ttl ttl),
            name := data.name, email := data.email, picture := data.picture,
            fb_access_token := data.fb_access_token }
        key := key } := by
  unfold create_access_token effective_ttl
  cases ttl with
  | none => rfl
  | some d => by_cases hd : d = 0 <;> simp [hd]

/-- A concrete claim dict, as built by the OAuth callback. -/
def cexClaims : Claims :=
  { sub := some "fb-user-1", name := some "Ada", email := none,
    picture := none, fb_access_token := some "fbtok" }

/-- A token signed with a key other than the verification key. -/
def wrongKeyTok : JwtToken :=
  { payload :=
      { sub := some "u", exp := some 10, name := none, email := none,
        picture := none, fb_access_token := none }
    key := "keyA" }

/-- A validated user payload carrying a Facebook access token. -/
def fbUser : TokenPayload :=
  { sub := some "fb-user-1", exp := some 999999, name := none, email := none,
    picture := none, fb_access_token := some "fbtok" }

/-! ## Claims -/

/-- C1: for every claim set and ttl, validating a token immediately after
issuing it succeeds and returns the embedded claims verbatim: every field
passed to `create_access_token` comes back unchanged, with the absolute
expiry `now + effective ttl` the only addition (a missing or zero ttl being
replaced by the 30-minute default by the truthiness guard). -/
theorem validate_issue_roundtrip (data : Claims) (ttl : Option Nat) (now : Nat)
    (key : String) :
    verify_token (create_access_token data ttl now key) key now credentialsException =
      .ok { sub := data.sub, exp := some (now + effective_ttl ttl),
            name := data.name, email := data.email, picture := data.picture,
            fb_access_token := data.fb_access_token } := by
  have h : ¬ (now + effective_ttl ttl < now) := by omega
  rw [create_access_token_eq]
  unfold verify_token verify_token_body jwt_decode
  simp [h]

/-- C4 counterexample, refuting the claim at two concrete inputs. First, a
token issued at time 100 with an explicit ttl of 0 embeds expiry 1900, not
the claimed issue time + ttl = 100: `timedelta(0)` is falsy, so
`if expires_delta:` falls to the 30-minute default. Second, a token issued
at time 40 with ttl 60 embeds expiry 100, and at current time 100 — where
current time ≥ expiry — validation succeeds and returns the payload instead
of failing with the Expired error, refuting the "≥" boundary: both expiry
checks in the code are strict. -/
theorem expiry_boundary_cex :
    (create_access_token cexClaims (some 0) 100 "k").payload.exp = some 1900 ∧
    (create_access_token cexClaims (some 60) 40 "k").payload.exp = some 100 ∧
    100 ≥ 100 ∧
    verify_token (create_access_token cexClaims (some 60) 40 "k") "k" 100
        credentialsException =
      .ok (create_access_token cexClaims (some 60) 40 "k").payload :=
  ⟨rfl, rfl, Nat.le_refl 100, rfl⟩

/-- C4 (amended): every issued token embeds the absolute expiry issue time
plus the effective ttl — the given ttl when nonzero, otherwise the
30-minute default, so in particular a token issued without an explicit ttl
carries issue time plus 30 minutes — and validation fails with the Expired
error exactly when the current time is strictly greater than that embedded
expiry (at the expiry instant itself the token is still accepted). -/
theorem expired_iff_strictly_after (data : Claims) (ttl : Option Nat) (t0 t : Nat)
    (key : String) :
    effective_ttl none = 30 * 60 ∧
    (create_access_token data ttl t0 key).payload.exp = some (t0 + effective_ttl ttl) ∧
    (verify_token_body (create_access_token data ttl t0 key) key t =
        .error (.jwtError .expiredSignature) ↔ t0 + effective_ttl ttl < t) := by
  rw [create_access_token_eq]
  refine ⟨rfl, rfl, ?_⟩
  unfold verify_token_body jwt_decode
  by_cases h : t0 + effective_ttl ttl < t <;> simp [h]

/-- C5: whenever the authentication dependency rejects a token — whichever
validation check failed (signature, expiry, or missing subject) — the
resulting error is HTTP 401 with the same generic detail
"Could not validate credentials". -/
theorem auth_failure_uniform (tok : JwtToken) (key : String) (now : Nat)
    (e : HttpError) (h : get_current_user tok key now = .error e) :
    e.status = 401 ∧ e.detail = "Could not validate credentials" := by
  have he : e = credentialsException := by
    unfold get_current_user verify_token at h
    cases hb : verify_token_body tok key now with
    | error f => rw [hb] at h; simpa using h.symm
    | ok p =>
      rw [hb] at h
      by_cases hs : p.sub = none <;> simp [hs] at h
      exact h.symm
  subst he
  exact ⟨rfl, rfl⟩

/-- C5 witness: a token signed with the wrong key is rejected, and the
error carries exactly the generic 401. -/
theorem auth_failure_uniform_witness :
    credentialsException.status = 401 ∧
    credentialsException.detail = "Could not validate credentials" :=
  auth_failure_uniform wrongKeyTok "keyB" 5 credentialsException rfl

/-- C2: with `fetch_all` true, an upstream trace of two pages carrying
`next` links followed by a page without one yields the concatenation of all
three pages' records in original order; and a transport error on the second
call yields exactly page 1's records, with no error escaping the call. -/
theorem comments_pagination_partial {α : Type} (d1 d2 d3 : List α)
    (u1 u2 msg : String) :
    get_post_comments true
        [.ok ⟨d1, some u1⟩, .ok ⟨d2, some u2⟩, .ok ⟨d3, none⟩] = d1 ++ d2 ++ d3 ∧
    get_post_comments true [.ok ⟨d1, some u1⟩, .requestError msg] = d1 := by
  constructor
  · cases d1 <;> cases d2 <;> cases d3 <;> simp [get_post_comments, commentsLoop]
  · cases d1 <;> simp [get_post_comments, commentsLoop]

/-- C6: on a transport error talking to the feed upstream, the single-post
endpoint raises the claimed generic 500 — but the posts endpoint, whose
except block has no 500 fallback (it re-raises only exceptions carrying a
`response` attribute, which `httpx.RequestError` lacks), raises no
HTTPException at all and implicitly returns `None`, contradicting the
claim (and the handler's own `-> Dict[str, Any]` contract). -/
theorem posts_transport_divergence :
    get_facebook_posts (α := Nat) fbUser (.requestError "timed out") = .ok none ∧
    get_facebook_post (β := Nat) fbUser (.requestError "timed out") =
      .error { status := 500
               detail := "An unexpected error occurred while fetching post: timed out" } :=
  ⟨rfl, rfl⟩

/-- C7: `get_user_posts` and `get_single_post` each consume exactly one
response from the outbound trace, regardless of the outcome — never a
retry — and a non-2xx upstream status is propagated to the caller as a
typed error carrying the provider's status and body, not swallowed. -/
theorem single_call_no_retry {α β : Type} (o : HttpOutcome (PostsBody α))
    (o' : HttpOutcome β) (rest : List (HttpOutcome (PostsBody α)))
    (rest' : List (HttpOutcome β)) (s : Nat) (txt : String) :
    (get_user_posts (o :: rest)).2 = rest ∧
    (get_single_post (o' :: rest')).2 = rest' ∧
    (get_user_posts (.httpStatusError s txt :: rest)).1 =
      .error (.httpStatus s txt) ∧
    (get_single_post ((.httpStatusError s txt : HttpOutcome β) :: rest')).1 =
      .error (.httpStatus s txt) :=
  ⟨rfl, rfl, rfl, rfl⟩

/-- C8: media extraction is a pure string scan: the example input yields
exactly the two URLs in order, and any input with no substring matching the
image-URL pattern (scheme, then a URL body ending in a recognized image
extension, case-insensitively, optionally followed by a query string)
yields the empty sequence. -/
theorem extract_media_refs_spec :
    extract_image_urls "see http://x.com/a.png and http://x.com/b.JPG?x=1" =
      ["http://x.com/a.png", "http://x.com/b.JPG?x=1"] ∧
    ∀ s : String, hasImageUrl s.data = false → extract_image_urls s = [] := by
  constructor
  · rfl
  · intro s h
    unfold extract_image_urls scanComment
    rw [scanCommentAux_eq_nil s.data.length s.data h]
    rfl

/-- C8 witness: a text with no image URL extracts to the empty list. -/
theorem extract_media_refs_spec_witness :
    hasImageUrl ("just plain text".data) = false ∧
    extract_image_urls "just plain text" = [] :=
  ⟨by decide, extract_media_refs_spec.2 "just plain text" (by decide)⟩

/-- C9: the four-label batch yields exactly the percentages 50/25/25, and
the empty batch takes the zero-total branch and yields all-zero
percentages rather than an error. -/
theorem aggregate_examples :
    sentiment_percentages ["positive", "positive", "negative", "neutral"] =
      { positive := 50, negative := 25, neutral := 25 } ∧
    sentiment_percentages [] = { positive := 0, negative := 0, neutral := 0 } := by
  constructor
  · have c1 : (["positive", "positive", "negative", "neutral"] : List String).count
        "positive" = 2 := rfl
    have c2 : (["positive", "positive", "negative", "neutral"] : List String).count
        "negative" = 1 := rfl
    have c3 : (["positive", "positive", "negative", "neutral"] : List String).count
        "neutral" = 1 := rfl
    unfold sentiment_percentages
    rw [c1, c2, c3]
    norm_num [SentimentPercentages.mk.injEq]
  · rfl

/-- C3 counterexample: the prediction list ["positive", "banana"] contains
a recognized label, yet the code computes percentages 50/0/0, which sum to
50 rather than 100: the denominator is the total prediction count (2), not
the count of recognized labels (1) as the claim states. -/
theorem aggregate_unrecognized_cex :
    sentiment_percentages ["positive", "banana"] =
      { positive := 50, negative := 0, neutral := 0 } ∧
    ¬ ((sentiment_percentages ["positive", "banana"]).positive +
        (sentiment_percentages ["positive", "banana"]).negative +
        (sentiment_percentages ["positive", "banana"]).neutral = 100) := by
  have h : sentiment_percentages ["positive", "banana"] =
      { positive := 50, negative := 0, neutral := 0 } := by
    have c1 : (["positive", "banana"] : List String).count "positive" = 1 := rfl
    have c2 : (["positive", "banana"] : List String).count "negative" = 0 := rfl
    have c3 : (["positive", "banana"] : List String).count "neutral" = 0 := rfl
    unfold sentiment_percentages
    rw [c1, c2, c3]
    norm_num [SentimentPercentages.mk.injEq]
  refine ⟨h, ?_⟩
  rw [h]
  norm_num

/-- C3 (amended): unrecognized model outputs stay in the denominator: for a
nonempty prediction list the three returned percentages sum to
100 · (count of recognized labels) / (total prediction count), hence to 100
exactly when every prediction is one of the three recognized labels. -/
theorem aggregate_denominator_total (labels : List String) (h : labels ≠ []) :
    (sentiment_percentages labels).positive + (sentiment_percentages labels).negative +
      (sentiment_percentages labels).neutral =
      100 * (((labels.count "positive" : ℚ) + (labels.count "negative" : ℚ) +
        (labels.count "neutral" : ℚ)) / (labels.length : ℚ)) := by
  have hl : labels.length ≠ 0 := by simpa using h
  have hq : (labels.length : ℚ) ≠ 0 := by exact_mod_cast hl
  unfold sentiment_percentages
  simp only [hl, if_false]
  field_simp
  ring

/-- C3 amended witness: the single-label batch ["positive"] sums to
100 · 1 / 1. -/
theorem aggregate_denominator_total_witness :
    (sentiment_percentages ["positive"]).positive +
      (sentiment_percentages ["positive"]).negative +
      (sentiment_percentages ["positive"]).neutral =
      100 * ((((["positive"] : List String).count "positive" : ℚ) +
        (((["positive"] : List String).count "negative" : ℚ)) +
        (((["positive"] : List String).count "neutral" : ℚ))) /
        (((["positive"] : List String).length : ℚ))) :=
  aggregate_denominator_total ["positive"] (by simp)

/-- C10: `get_post_comments` never propagates an upstream HTTP-status or
transport error: when the very first call fails — whatever `fetch_all` is —
it returns the empty list; and the comments endpoint, which calls it with
`fetch_all` left at its default false, answers every trace with status 200
and the accumulated (possibly empty) list whenever the user carries a
nonempty Facebook token. -/
theorem comments_never_error {α : Type} (fa : Bool) (s : Nat) (txt msg : String)
    (rest trace : List (HttpOutcome (CommentsBody α))) (u : TokenPayload)
    (t : String) (ht : u.fb_access_token = some t) (hne : t ≠ "") :
    get_post_comments fa (.httpStatusError s txt :: rest) = ([] : List α) ∧
    get_post_comments fa (.requestError msg :: rest) = ([] : List α) ∧
    get_facebook_post_comments u trace = .ok (get_post_comments false trace) := by
  refine ⟨rfl, rfl, ?_⟩
  unfold get_facebook_post_comments
  rw [ht]
  simp [hne]

/-- C10 witness: concrete first-call failures yield the empty list, and the
endpoint answers the failing trace with the (empty) accumulated list. -/
theorem comments_never_error_witness :
    get_post_comments false
        [(.httpStatusError 500 "boom" : HttpOutcome (CommentsBody Nat))] =
      ([] : List Nat) ∧
    get_post_comments false
        [(.requestError "timeout" : HttpOutcome (CommentsBody Nat))] =
      ([] : List Nat) ∧
    get_facebook_post_comments fbUser
        [(.requestError "timeout" : HttpOutcome (CommentsBody Nat))] =
      .ok (get_post_comments false
        [(.requestError "timeout" : HttpOutcome (CommentsBody Nat))]) :=
  comments_never_error false 500 "boom" "timeout" [] [.requestError "timeout"]
    fbUser "fbtok" rfl (by decide)

end Simm
